import Mathlib

/-
Verification of the data-monitoring and retraining-trigger subsystem
(data_monitoring.py): drift detection (DataDriftDetector.detect_drift),
performance evaluation (ModelPerformanceMonitor.evaluate_current_performance),
the retraining policy (RetrainingTrigger.should_retrain, load_config) and
the trigger store (RetrainingTrigger.trigger_retraining), shallowly embedded.

Modelling conventions:
- pandas DataFrames are records of a row count and an association list of
  named columns; a cell is Option Rat so that dropna is meaningful;
- Python floats are embedded as Rat;
- external library calls (scipy.stats.ks_2samp, numpy sqrt, datetime day
  arithmetic) and the database log sink are oracle parameters collected in
  MonitorEnv; a raising external call is an oracle returning an error value;
- a Python dict with optional keys becomes a structure with Option fields
  or a sum type distinguishing the error shape from the success shape.
-/

namespace DataMon

/-- A pandas DataFrame: a row count and named columns; a cell that is NaN
in the source is a none. -/
structure DataFrame where
  nrows : Nat
  cols : List (String × List (Option ℚ))
deriving Repr

/-- pandas Series.dropna: discard the missing cells of a column. -/
def dropna (c : List (Option ℚ)) : List ℚ := c.filterMap id

/-- One entry of the drift_scores map of detect_drift. -/
structure FeatureScore where
  ks_statistic : ℚ
  p_value : ℚ
  drifted : Bool
deriving Repr, DecidableEq

/-- The report built by DataDriftDetector.detect_drift when reference data
is available. The error field (none when absent) is set by the except
around the column loop: a KS call raising mid-loop leaves the scores
accumulated so far and overall_drift at its initialised false. -/
structure DriftReport where
  timestamp : String
  total_features : Nat
  drifted_features : List String
  drift_scores : List (String × FeatureScore)
  overall_drift : Bool
  error : Option String
deriving Repr, DecidableEq

/-- detect_drift either returns the dictionary that only carries
"error": "Reference data not available", or a full report. -/
inductive DriftOutcome where
  | unavailable
  | report (r : DriftReport)
deriving Repr, DecidableEq

/-- drift_results.get("overall_drift", False) as used by should_retrain. -/
def DriftOutcome.overallDrift : DriftOutcome → Bool
  | .unavailable => false
  | .report r => r.overall_drift

/-- The drift_scores of the outcome ([] for the error dictionary). -/
def DriftOutcome.scores : DriftOutcome → List (String × FeatureScore)
  | .unavailable => []
  | .report r => r.drift_scores

/-- The drifted_features of the outcome ([] for the error dictionary). -/
def DriftOutcome.driftedFeatures : DriftOutcome → List String
  | .unavailable => []
  | .report r => r.drifted_features

/-- The error key of the outcome: always present for the
missing-reference dictionary, and present on a report exactly when a KS
call raised during the column loop. -/
def DriftOutcome.errMsg : DriftOutcome → Option String
  | .unavailable => some "Reference data not available"
  | .report r => r.error

/-- One iteration of the detect_drift column loop: skip a column that is
absent from the reference data, otherwise run the KS test on the two
columns with their missing cells dropped; the KS oracle can raise (for
instance on a column that is empty after dropping its missing values),
which is returned as an error. On success the score records
drifted = (p_value < threshold). -/
def scoreColumn (ks : List ℚ → List ℚ → Except String (ℚ × ℚ))
    (ref : DataFrame) (threshold : ℚ) (c : String × List (Option ℚ)) :
    Except String (Option (String × FeatureScore)) :=
  match ref.cols.lookup c.1 with
  | none => .ok none
  | some refCol =>
    match ks (dropna refCol) (dropna c.2) with
    | .error e => .error e
    | .ok t => .ok (some (c.1, FeatureScore.mk t.1 t.2 (decide (t.2 < threshold))))

/-- The detect_drift column loop: accumulates the per-column scores in
column order and aborts at the first raising KS call, reporting its
message; the columns after a raising call are not scored. -/
def detectLoop (ks : List ℚ → List ℚ → Except String (ℚ × ℚ))
    (ref : DataFrame) (threshold : ℚ) :
    List (String × List (Option ℚ)) →
      List (String × FeatureScore) × Option String
  | [] => ([], none)
  | c :: rest =>
    match scoreColumn ks ref threshold c with
    | .error e => ([], some e)
    | .ok none => detectLoop ks ref threshold rest
    | .ok (some p) =>
      let r := detectLoop ks ref threshold rest
      (p :: r.1, r.2)

/-- DataDriftDetector.detect_drift. The ks parameter is the
scipy.stats.ks_2samp oracle returning (statistic, p_value) or raising.
For each column of the new batch present in the reference data it records
the KS score with drifted = (p_value < threshold); a column is listed in
drifted_features under the same condition. The loop and the overall-drift
computation sit inside a try/except: when no KS call raises, overall_drift
is set when the number of drifted features exceeds
0.2 * len(new_data.columns); when one raises, the partial report is
returned with the message in its error field and overall_drift still at
its initialised false. -/
def detect_drift (ks : List ℚ → List ℚ → Except String (ℚ × ℚ))
    (nowIso : String) (reference_data : Option DataFrame)
    (new_data : DataFrame) (threshold : ℚ) : DriftOutcome :=
  match reference_data with
  | none => .unavailable
  | some ref =>
    let lr := detectLoop ks ref threshold new_data.cols
    let drift_scores := lr.1
    let drifted_features := (drift_scores.filter fun p => p.2.drifted).map fun p => p.1
    let overall : Bool :=
      match lr.2 with
      | some _ => false
      | none =>
        decide ((drifted_features.length : ℚ) > 0.2 * (new_data.cols.length : ℚ))
    .report ⟨nowIso, new_data.cols.length, drifted_features, drift_scores,
      overall, lr.2⟩

/-- sklearn.metrics.mean_squared_error over exact rationals; raising
(inconsistent lengths, empty input) is modelled as an error value. -/
def mean_squared_error (y_true y_pred : List ℚ) : Except String ℚ :=
  if y_true.length ≠ y_pred.length then
    .error "Found input variables with inconsistent numbers of samples"
  else if y_true.length = 0 then
    .error "Found array with 0 sample(s)"
  else
    .ok (((y_true.zip y_pred).map fun p => (p.1 - p.2) ^ 2).sum / (y_true.length : ℚ))

/-- sklearn.metrics.mean_absolute_error over exact rationals. -/
def mean_absolute_error (y_true y_pred : List ℚ) : Except String ℚ :=
  if y_true.length ≠ y_pred.length then
    .error "Found input variables with inconsistent numbers of samples"
  else if y_true.length = 0 then
    .error "Found array with 0 sample(s)"
  else
    .ok (((y_true.zip y_pred).map fun p => |p.1 - p.2|).sum / (y_true.length : ℚ))

/-- The r2_score convention for a zero total sum of squares: 1 when the
residual sum is also zero, else 0. -/
def zeroDenominatorScore (ss_res : ℚ) : ℚ :=
  if ss_res = 0 then 1 else 0

/-- sklearn.metrics.r2_score over exact rationals. The undefined result on
fewer than two samples (a NaN in the library) is modelled as an error
value; a zero total sum of squares follows the library convention
(1 when the residual is also zero, else 0). -/
def r2_score (y_true y_pred : List ℚ) : Except String ℚ :=
  if y_true.length ≠ y_pred.length then
    .error "Found input variables with inconsistent numbers of samples"
  else if y_true.length < 2 then
    .error "R^2 score is not well-defined with less than two samples."
  else
    let mean := y_true.sum / (y_true.length : ℚ)
    let ss_res := ((y_true.zip y_pred).map fun p => (p.1 - p.2) ^ 2).sum
    let ss_tot := (y_true.map fun y => (y - mean) ^ 2).sum
    .ok (if ss_tot = 0 then zeroDenominatorScore ss_res else 1 - ss_res / ss_tot)

/-- The models/best_model_metrics.json artifact. -/
structure BaselineMetrics where
  rmse : ℚ
  mae : ℚ
  r2 : ℚ
  training_timestamp : Option String
deriving Repr, DecidableEq

/-- The degradation keys added to the performance dictionary when a
baseline is present. -/
structure DegradationInfo where
  rmse_degradation : ℚ
  r2_degradation : ℚ
  performance_degraded : Bool
deriving Repr, DecidableEq

/-- The success shape of evaluate_current_performance. -/
structure PerfMetrics where
  timestamp : String
  rmse : ℚ
  mae : ℚ
  r2 : ℚ
  n_samples : Nat
  degradation : Option DegradationInfo
deriving Repr, DecidableEq

/-- evaluate_current_performance returns either the metrics dictionary or
the dictionary carrying only an error string and a timestamp. -/
inductive PerfOutcome where
  | ok (m : PerfMetrics)
  | err (e : String) (timestamp : String)
deriving Repr, DecidableEq

/-- performance_results.get("performance_degraded", False) as used by
should_retrain. -/
def PerfOutcome.degraded : PerfOutcome → Bool
  | .ok m =>
    match m.degradation with
    | some d => d.performance_degraded
    | none => false
  | .err _ _ => false

/-- Oracles for the external collaborators of the monitoring core:
the scipy KS test (raising for instance on an empty sample), numpy sqrt,
the wall clock, datetime day arithmetic (raising on an unparsable
timestamp), and the two database-log sinks (none = the call returns,
some e = the call raises e). -/
structure MonitorEnv where
  ks : List ℚ → List ℚ → Except String (ℚ × ℚ)
  sqrtQ : ℚ → ℚ
  nowIso : String
  daysSince : String → Except String Int
  logMetricExc : Option String
  logMsgExc : Option String

/-- ModelPerformanceMonitor.evaluate_current_performance: computes RMSE,
MAE and R2 over the paired lists; when a baseline is loaded it adds the
relative degradation ratios and the degradation flag; any raising step
(metric computation or the metric-log sink) yields the error dictionary. -/
def evaluate_current_performance (env : MonitorEnv)
    (baseline_metrics : Option BaselineMetrics) (performance_threshold : ℚ)
    (predictions actuals : List ℚ) : PerfOutcome :=
  match mean_squared_error actuals predictions with
  | .error e => .err e env.nowIso
  | .ok mse =>
    match mean_absolute_error actuals predictions with
    | .error e => .err e env.nowIso
    | .ok mae =>
      match r2_score actuals predictions with
      | .error e => .err e env.nowIso
      | .ok r2 =>
        let rmse := env.sqrtQ mse
        let degradation := baseline_metrics.map fun b =>
          let rmse_degradation := (rmse - b.rmse) / b.rmse
          let r2_degradation := (b.r2 - r2) / b.r2
          DegradationInfo.mk rmse_degradation r2_degradation
            (decide (rmse_degradation > performance_threshold) ||
              decide (r2_degradation > performance_threshold))
        match env.logMetricExc with
        | some e => .err e env.nowIso
        | none => .ok ⟨env.nowIso, rmse, mae, r2, predictions.length, degradation⟩

/-- The data_volume_check sub-dictionary of a retraining decision. -/
structure DataVolumeCheck where
  new_samples : Nat
  min_required : Int
  sufficient_data : Bool
deriving Repr, DecidableEq

/-- The retraining decision dictionary of should_retrain. -/
structure RetrainingDecision where
  timestamp : String
  should_retrain : Bool
  reasons : List String
  drift_analysis : Option DriftOutcome
  performance_analysis : Option PerfOutcome
  data_volume_check : Option DataVolumeCheck
  error : Option String
deriving Repr, DecidableEq

/-- The retraining_config dictionary after load_config (all keys present). -/
structure RetrainingConfig where
  drift_threshold : ℚ
  performance_threshold : ℚ
  min_samples_for_retraining : Int
  max_days_since_last_training : Int
  enable_automatic_retraining : Bool
deriving Repr, DecidableEq

/-- The decision dictionary as initialised at the top of should_retrain. -/
def initDecision (nowIso : String) : RetrainingDecision :=
  ⟨nowIso, false, [], none, none, none, none⟩

/-- Step 1 of should_retrain: data drift. -/
def driftStep (ks : List ℚ → List ℚ → Except String (ℚ × ℚ)) (nowIso : String)
    (drift_threshold : ℚ) (reference_data : Option DataFrame)
    (new_data : DataFrame) (d : RetrainingDecision) : RetrainingDecision :=
  if new_data.nrows > 0 then
    let drift_results := detect_drift ks nowIso reference_data new_data drift_threshold
    let d1 := {d with drift_analysis := some drift_results}
    if drift_results.overallDrift then
      {d1 with reasons := d1.reasons ++ ["Data drift detected"], should_retrain := true}
    else d1
  else d

/-- Step 2 of should_retrain: performance degradation. The guard mirrors
`if predictions and actuals and len(predictions) == len(actuals)`
(Python truthiness: a None or an empty list skips the step). -/
def perfStep (env : MonitorEnv) (performance_threshold : ℚ)
    (baseline_metrics : Option BaselineMetrics)
    (predictions actuals : Option (List ℚ)) (d : RetrainingDecision) :
    RetrainingDecision :=
  match predictions, actuals with
  | some ps, some acts =>
    if !ps.isEmpty && !acts.isEmpty && ps.length == acts.length then
      let performance_results :=
        evaluate_current_performance env baseline_metrics performance_threshold ps acts
      let d1 := {d with performance_analysis := some performance_results}
      if performance_results.degraded then
        {d1 with reasons := d1.reasons ++ ["Performance degradation detected"], should_retrain := true}
      else d1
    else d
  | _, _ => d

/-- Step 3 of should_retrain: data volume. -/
def volumeStep (min_samples : Int) (new_data : DataFrame)
    (d : RetrainingDecision) : RetrainingDecision :=
  let check := DataVolumeCheck.mk new_data.nrows min_samples
    (decide ((new_data.nrows : Int) ≥ min_samples))
  let d1 := {d with data_volume_check := some check}
  if !check.sufficient_data then
    {d1 with reasons := d1.reasons ++ ["Insufficient new data for retraining"]}
  else d1

/-- Step 4 of should_retrain: staleness. The metrics file is re-read on
every call; a missing file or a raising timestamp parse is swallowed by
the inner except and leaves the decision unchanged. -/
def staleStep (nowIso : String) (daysSince : String → Except String Int)
    (max_days : Int) (metrics_file : Option BaselineMetrics)
    (d : RetrainingDecision) : RetrainingDecision :=
  match metrics_file with
  | none => d
  | some m =>
    match daysSince (m.training_timestamp.getD nowIso) with
    | .error _ => d
    | .ok days_since_training =>
      if days_since_training > max_days then
        {d with reasons := d.reasons ++ ["Model is " ++ toString days_since_training ++ " days old"], should_retrain := true}
      else d

/-- Step 5 of should_retrain: the final enable_automatic_retraining
override. -/
def overrideStep (enable_automatic_retraining : Bool)
    (d : RetrainingDecision) : RetrainingDecision :=
  if d.should_retrain && !enable_automatic_retraining then
    {d with should_retrain := false, reasons := d.reasons ++ ["Automatic retraining is disabled"]}
  else d

/-- The db_logger.log_message call at the end of the try block: when the
sink raises, the top-level except attaches the message to the error field
of the decision built so far and still returns it. -/
def logStep (logMsgExc : Option String) (d : RetrainingDecision) :
    RetrainingDecision :=
  match logMsgExc with
  | some e => {d with error := some e}
  | none => d

/-- RetrainingTrigger.should_retrain: the five policy steps in source
order followed by the decision-log write, with the top-level except
materialised by logStep. -/
def should_retrain (env : MonitorEnv) (config : RetrainingConfig)
    (reference_data : Option DataFrame)
    (baseline_metrics : Option BaselineMetrics)
    (metrics_file : Option BaselineMetrics) (new_data : DataFrame)
    (predictions actuals : Option (List ℚ)) : RetrainingDecision :=
  logStep env.logMsgExc
    (overrideStep config.enable_automatic_retraining
      (staleStep env.nowIso env.daysSince config.max_days_since_last_training
        metrics_file
        (volumeStep config.min_samples_for_retraining new_data
          (perfStep env config.performance_threshold baseline_metrics
            predictions actuals
            (driftStep env.ks env.nowIso config.drift_threshold reference_data
              new_data (initDecision env.nowIso))))))

/-- A JSON value (the fragment the configuration file uses). -/
inductive JsonValue where
  | num (q : ℚ)
  | str (s : String)
  | bool (b : Bool)
  | null
deriving Repr, DecidableEq

/-- The hard-coded default_config of RetrainingTrigger.load_config. -/
def default_config : List (String × JsonValue) :=
  [("drift_threshold", .num 0.05),
   ("performance_threshold", .num 0.1),
   ("min_samples_for_retraining", .num 100),
   ("max_days_since_last_training", .num 30),
   ("enable_automatic_retraining", .bool true)]

/-- Python dict merge for dicts with unique keys, the meaning of
applying double-star unpacking to the defaults and then the file dict:
every key of a is kept (with the value of b when b also binds it) and
the keys only in b are appended. -/
def mergeDicts (a b : List (String × JsonValue)) : List (String × JsonValue) :=
  (a.map fun kv => (kv.1, (b.lookup kv.1).getD kv.2)) ++
    b.filter fun kv => (a.lookup kv.1).isNone

/-- RetrainingTrigger.load_config: none models a missing, unreadable or
malformed configuration file (every raising path returns the defaults);
a parsed dict is merged over the defaults. -/
def load_config (file : Option (List (String × JsonValue))) :
    List (String × JsonValue) :=
  match file with
  | none => default_config
  | some config => mergeDicts default_config config

/-- The JSON body written to a trigger file. -/
structure TriggerData where
  timestamp : String
  triggered_by : String
  status : String
deriving Repr, DecidableEq

/-- The writeable store: path to trigger-file content. -/
abbrev FileSystem := List (String × TriggerData)

/-- The fixed path the source writes every trigger to. -/
def trigger_file : String := "triggers/retrain_model.trigger"

/-- open(path, "w"): replaces whatever was stored at the path. -/
def writeFile (fs : FileSystem) (path : String) (content : TriggerData) :
    FileSystem :=
  (path, content) :: fs.filter fun e => e.1 != path

/-- The result dictionary of trigger_retraining. -/
inductive TriggerResult where
  | success (trigger_file_path : String) (timestamp : String) (message : String)
  | failure (e : String) (timestamp : String)
deriving Repr, DecidableEq

/-- RetrainingTrigger.trigger_retraining: writes the pending trigger
record to the fixed path and reports success; a raising filesystem write
or log write is caught and turned into the error dictionary. -/
def trigger_retraining (nowIso : String) (writeExc : Option String)
    (logMsgExc : Option String) (fs : FileSystem) :
    FileSystem × TriggerResult :=
  match writeExc with
  | some e => (fs, .failure e nowIso)
  | none =>
    let trigger_data := TriggerData.mk nowIso "automated_monitoring" "pending"
    let fs1 := writeFile fs trigger_file trigger_data
    match logMsgExc with
    | some e => (fs1, .failure e nowIso)
    | none => (fs1, .success trigger_file nowIso "Retraining process initiated")

/-! ### Helper lemmas about the policy steps -/

theorem driftStep_error (ks : List ℚ → List ℚ → Except String (ℚ × ℚ)) (nowIso : String)
    (t : ℚ) (rd : Option DataFrame) (nd : DataFrame) (d : RetrainingDecision) :
    (driftStep ks nowIso t rd nd d).error = d.error := by
  unfold driftStep
  dsimp only
  split_ifs <;> rfl

theorem perfStep_error (env : MonitorEnv) (t : ℚ) (b : Option BaselineMetrics)
    (ps acts : Option (List ℚ)) (d : RetrainingDecision) :
    (perfStep env t b ps acts d).error = d.error := by
  unfold perfStep
  rcases ps with _ | ps <;> rcases acts with _ | acts
  · rfl
  · rfl
  · rfl
  · dsimp only
    split_ifs <;> rfl

theorem volumeStep_error (n : Int) (nd : DataFrame) (d : RetrainingDecision) :
    (volumeStep n nd d).error = d.error := by
  unfold volumeStep
  dsimp only
  split_ifs <;> rfl

theorem staleStep_error (nowIso : String) (ds : String → Except String Int)
    (mx : Int) (mf : Option BaselineMetrics) (d : RetrainingDecision) :
    (staleStep nowIso ds mx mf d).error = d.error := by
  unfold staleStep
  rcases mf with _ | m
  · rfl
  · dsimp only
    rcases ds (m.training_timestamp.getD nowIso) with e | k
    · rfl
    · dsimp only
      split_ifs <;> rfl

theorem overrideStep_error (e : Bool) (d : RetrainingDecision) :
    (overrideStep e d).error = d.error := by
  unfold overrideStep
  split_ifs <;> rfl

theorem driftStep_reasons (ks : List ℚ → List ℚ → Except String (ℚ × ℚ)) (nowIso : String)
    (t : ℚ) (rd : Option DataFrame) (nd : DataFrame) (d : RetrainingDecision) :
    (driftStep ks nowIso t rd nd d).reasons = d.reasons ∨
      (driftStep ks nowIso t rd nd d).reasons = d.reasons ++ ["Data drift detected"] := by
  unfold driftStep
  dsimp only
  split_ifs <;> simp

theorem perfStep_reasons (env : MonitorEnv) (t : ℚ) (b : Option BaselineMetrics)
    (ps acts : Option (List ℚ)) (d : RetrainingDecision) :
    (perfStep env t b ps acts d).reasons = d.reasons ∨
      (perfStep env t b ps acts d).reasons = d.reasons ++ ["Performance degradation detected"] := by
  unfold perfStep
  rcases ps with _ | ps <;> rcases acts with _ | acts <;> dsimp only <;> try simp
  split_ifs <;> simp

theorem volumeStep_reasons (n : Int) (nd : DataFrame) (d : RetrainingDecision) :
    (volumeStep n nd d).reasons = d.reasons ∨
      (volumeStep n nd d).reasons = d.reasons ++ ["Insufficient new data for retraining"] := by
  unfold volumeStep
  dsimp only
  split_ifs <;> simp

theorem staleStep_reasons (nowIso : String) (ds : String → Except String Int)
    (mx : Int) (mf : Option BaselineMetrics) (d : RetrainingDecision) :
    (staleStep nowIso ds mx mf d).reasons = d.reasons ∨
      ∃ k : Int, (staleStep nowIso ds mx mf d).reasons =
        d.reasons ++ ["Model is " ++ toString k ++ " days old"] := by
  unfold staleStep
  rcases mf with _ | m
  · simp
  · dsimp only
    rcases ds (m.training_timestamp.getD nowIso) with e | k
    · simp
    · dsimp only
      split_ifs
      · exact Or.inr ⟨k, rfl⟩
      · simp

/-- The four reason strings the first four steps can append are all
distinct from the disabling reason of the final override. -/
theorem stale_reason_ne_disabled (k : Int) :
    ("Model is " ++ toString k ++ " days old") ≠ "Automatic retraining is disabled" := by
  intro h
  have h2 := congrArg String.data h
  simp [String.data_append] at h2

theorem disabled_not_in_staleStep (nowIso : String)
    (ds : String → Except String Int) (mx : Int) (mf : Option BaselineMetrics)
    (d : RetrainingDecision)
    (hd : "Automatic retraining is disabled" ∉ d.reasons) :
    "Automatic retraining is disabled" ∉ (staleStep nowIso ds mx mf d).reasons := by
  rcases staleStep_reasons nowIso ds mx mf d with h | ⟨k, h⟩ <;> rw [h]
  · exact hd
  · intro hmem
    rcases List.mem_append.mp hmem with h1 | h1
    · exact hd h1
    · exact stale_reason_ne_disabled k (List.mem_singleton.mp h1).symm

theorem disabled_not_in_volumeStep (n : Int) (nd : DataFrame)
    (d : RetrainingDecision)
    (hd : "Automatic retraining is disabled" ∉ d.reasons) :
    "Automatic retraining is disabled" ∉ (volumeStep n nd d).reasons := by
  rcases volumeStep_reasons n nd d with h | h <;> rw [h]
  · exact hd
  · intro hmem
    rcases List.mem_append.mp hmem with h1 | h1
    · exact hd h1
    · simp at h1

theorem disabled_not_in_perfStep (env : MonitorEnv) (t : ℚ)
    (b : Option BaselineMetrics) (ps acts : Option (List ℚ))
    (d : RetrainingDecision)
    (hd : "Automatic retraining is disabled" ∉ d.reasons) :
    "Automatic retraining is disabled" ∉ (perfStep env t b ps acts d).reasons := by
  rcases perfStep_reasons env t b ps acts d with h | h <;> rw [h]
  · exact hd
  · intro hmem
    rcases List.mem_append.mp hmem with h1 | h1
    · exact hd h1
    · simp at h1

theorem disabled_not_in_driftStep (ks : List ℚ → List ℚ → Except String (ℚ × ℚ))
    (nowIso : String) (t : ℚ) (rd : Option DataFrame) (nd : DataFrame)
    (d : RetrainingDecision)
    (hd : "Automatic retraining is disabled" ∉ d.reasons) :
    "Automatic retraining is disabled" ∉ (driftStep ks nowIso t rd nd d).reasons := by
  rcases driftStep_reasons ks nowIso t rd nd d with h | h <;> rw [h]
  · exact hd
  · intro hmem
    rcases List.mem_append.mp hmem with h1 | h1
    · exact hd h1
    · simp at h1

theorem logStep_reasons (l : Option String) (d : RetrainingDecision) :
    (logStep l d).reasons = d.reasons := by
  cases l <;> rfl

theorem logStep_flag (l : Option String) (d : RetrainingDecision) :
    (logStep l d).should_retrain = d.should_retrain := by
  cases l <;> rfl

theorem overrideStep_true (d : RetrainingDecision) : overrideStep true d = d := by
  unfold overrideStep
  simp

theorem overrideStep_false_flag (d : RetrainingDecision) :
    (overrideStep false d).should_retrain = false := by
  unfold overrideStep
  split_ifs with h
  · rfl
  · simpa using h

/-! ### Claim theorems -/

/-- Claim C4 (confirmed): should_retrain never raises to its caller; it is
a total function into decision dictionaries. When the internal
decision-log write raises with message m (the one step of the embedded try
block whose oracle can raise), the returned decision is exactly the
decision built up to that point with the message attached to its error
field, and a run whose steps all succeed carries no error. -/
theorem should_retrain_fail_soft (ks : List ℚ → List ℚ → Except String (ℚ × ℚ)) (sq : ℚ → ℚ)
    (now : String) (ds : String → Except String Int) (lmx : Option String)
    (m : String) (cfg : RetrainingConfig) (rd : Option DataFrame)
    (b mf : Option BaselineMetrics) (nd : DataFrame)
    (ps acts : Option (List ℚ)) :
    should_retrain ⟨ks, sq, now, ds, lmx, some m⟩ cfg rd b mf nd ps acts =
      {should_retrain ⟨ks, sq, now, ds, lmx, none⟩ cfg rd b mf nd ps acts with
        error := some m} ∧
    (should_retrain ⟨ks, sq, now, ds, lmx, none⟩ cfg rd b mf nd ps acts).error = none := by
  constructor
  · rfl
  · show (logStep none _).error = none
    rw [show ∀ d, (logStep none d) = d from fun _ => rfl]
    rw [overrideStep_error, staleStep_error, volumeStep_error, perfStep_error,
      driftStep_error]
    rfl

/-- Claim C2 (corrected): with automatic retraining disabled the returned
decision always has should_retrain = false, but the reason
"Automatic retraining is disabled" is appended only when some signal had
set should_retrain to true before the final override; it is included in
the reasons iff the same call with the flag enabled would decide to
retrain. -/
theorem should_retrain_disabled (env : MonitorEnv) (cfg : RetrainingConfig)
    (rd : Option DataFrame) (b mf : Option BaselineMetrics) (nd : DataFrame)
    (ps acts : Option (List ℚ))
    (h : cfg.enable_automatic_retraining = false) :
    (should_retrain env cfg rd b mf nd ps acts).should_retrain = false ∧
      ("Automatic retraining is disabled" ∈
          (should_retrain env cfg rd b mf nd ps acts).reasons ↔
        (should_retrain env {cfg with enable_automatic_retraining := true}
            rd b mf nd ps acts).should_retrain = true) := by
  obtain ⟨dt, pt, ms, mx, en⟩ := cfg
  simp only at h
  subst h
  unfold should_retrain
  dsimp only
  rw [logStep_flag, logStep_reasons, logStep_flag, overrideStep_true]
  set d4 := staleStep env.nowIso env.daysSince mx mf
    (volumeStep ms nd
      (perfStep env pt b ps acts
        (driftStep env.ks env.nowIso dt rd nd (initDecision env.nowIso)))) with hd4
  have hnd : "Automatic retraining is disabled" ∉ d4.reasons := by
    rw [hd4]
    apply disabled_not_in_staleStep
    apply disabled_not_in_volumeStep
    apply disabled_not_in_perfStep
    apply disabled_not_in_driftStep
    simp [initDecision]
  constructor
  · exact overrideStep_false_flag d4
  · unfold overrideStep
    split_ifs with hc
    · simp only [Bool.not_false, Bool.and_true] at hc
      simp [hc]
    · simp only [Bool.not_false, Bool.and_true] at hc
      simp only [Bool.not_eq_true] at hc
      simp [hc, hnd]

theorem overrideStep_mem (e : Bool) (d : RetrainingDecision) (x : String)
    (h : x ∈ d.reasons) : x ∈ (overrideStep e d).reasons := by
  unfold overrideStep
  split_ifs
  · exact List.mem_append_left _ h
  · exact h

theorem staleStep_fired (nowIso : String) (ds : String → Except String Int)
    (mx : Int) (m : BaselineMetrics) (ts : String) (k : Int)
    (d : RetrainingDecision) (h1 : m.training_timestamp = some ts)
    (h2 : ds ts = .ok k) (hk : k > mx) :
    staleStep nowIso ds mx (some m) d =
      {d with reasons := d.reasons ++ ["Model is " ++ toString k ++ " days old"], should_retrain := true} := by
  unfold staleStep
  dsimp only
  rw [h1]
  simp only [Option.getD]
  rw [h2]
  simp only
  rw [if_pos hk]

theorem staleStep_quiet (nowIso : String) (ds : String → Except String Int)
    (mx : Int) (m : BaselineMetrics) (ts : String) (k : Int)
    (d : RetrainingDecision) (h1 : m.training_timestamp = some ts)
    (h2 : ds ts = .ok k) (hk : ¬ k > mx) :
    staleStep nowIso ds mx (some m) d = d := by
  unfold staleStep
  dsimp only
  rw [h1]
  simp only [Option.getD]
  rw [h2]
  simp only
  rw [if_neg hk]

/-- Claim C8 (confirmed): when the baseline-metrics artifact exists and
carries a training timestamp whose day count k strictly exceeds
max_days_since_last_training, the decision includes the reason
"Model is k days old" and (absent the disable override, i.e. with the
enable flag true) has should_retrain = true; when the day count does not
exceed the limit, the staleness step leaves any decision unchanged. -/
theorem should_retrain_staleness (env : MonitorEnv) (cfg : RetrainingConfig)
    (rd : Option DataFrame) (b : Option BaselineMetrics) (nd : DataFrame)
    (ps acts : Option (List ℚ)) (m : BaselineMetrics) (ts : String) (k : Int)
    (h1 : m.training_timestamp = some ts) (h2 : env.daysSince ts = .ok k) :
    (k > cfg.max_days_since_last_training →
      ("Model is " ++ toString k ++ " days old") ∈
          (should_retrain env cfg rd b (some m) nd ps acts).reasons ∧
        (cfg.enable_automatic_retraining = true →
          (should_retrain env cfg rd b (some m) nd ps acts).should_retrain = true)) ∧
    (¬ k > cfg.max_days_since_last_training →
      ∀ d : RetrainingDecision,
        staleStep env.nowIso env.daysSince cfg.max_days_since_last_training
          (some m) d = d) := by
  constructor
  · intro hk
    unfold should_retrain
    rw [staleStep_fired env.nowIso env.daysSince cfg.max_days_since_last_training
      m ts k _ h1 h2 hk]
    constructor
    · rw [logStep_reasons]
      apply overrideStep_mem
      simp
    · intro hen
      rw [logStep_flag, hen, overrideStep_true]
  · intro hk d
    exact staleStep_quiet env.nowIso env.daysSince
      cfg.max_days_since_last_training m ts k d h1 h2 hk

theorem scoreColumn_mem (ks : List ℚ → List ℚ → Except String (ℚ × ℚ)) (ref : DataFrame)
    (thr : ℚ) (c : String × List (Option ℚ)) (n : String) (s : FeatureScore)
    (h : scoreColumn ks ref thr c = .ok (some (n, s))) :
    s.drifted = decide (s.p_value < thr) := by
  unfold scoreColumn at h
  rcases hl : ref.cols.lookup c.1 with _ | refCol <;> rw [hl] at h
  · injection h with h2
    exact Option.noConfusion h2
  · dsimp only at h
    rcases hk : ks (dropna refCol) (dropna c.2) with e | t <;> rw [hk] at h
    · exact Except.noConfusion h
    · dsimp only at h
      injection h with h2
      injection h2 with h3
      injection h3 with h4 h5
      rw [← h5]

theorem detectLoop_mem (ks : List ℚ → List ℚ → Except String (ℚ × ℚ))
    (ref : DataFrame) (thr : ℚ) (cols : List (String × List (Option ℚ)))
    (n : String) (s : FeatureScore)
    (h : (n, s) ∈ (detectLoop ks ref thr cols).1) :
    s.drifted = decide (s.p_value < thr) := by
  induction cols with
  | nil => exact absurd h (List.not_mem_nil _)
  | cons c rest ih =>
    simp only [detectLoop] at h
    rcases hc : scoreColumn ks ref thr c with e | p <;> rw [hc] at h
    · exact absurd h (List.not_mem_nil _)
    · rcases p with _ | ⟨pn, psc⟩
      · exact ih h
      · dsimp only at h
        rcases List.mem_cons.mp h with h1 | h1
        · injection h1 with h2 h3
          subst h3
          exact scoreColumn_mem ks ref thr c pn s hc
        · exact ih h1

theorem detect_drift_scores_mem (ks : List ℚ → List ℚ → Except String (ℚ × ℚ)) (now : String)
    (ref nd : DataFrame) (thr : ℚ) (n : String) (s : FeatureScore)
    (h : (n, s) ∈ (detect_drift ks now (some ref) nd thr).scores) :
    s.drifted = decide (s.p_value < thr) := by
  have h2 : (n, s) ∈ (detectLoop ks ref thr nd.cols).1 := h
  exact detectLoop_mem ks ref thr nd.cols n s h2

theorem detect_drift_err (ks : List ℚ → List ℚ → Except String (ℚ × ℚ))
    (now : String) (ref nd : DataFrame) (thr : ℚ) (e : String)
    (hc : (detectLoop ks ref thr nd.cols).2 = some e) :
    detect_drift ks now (some ref) nd thr = .report ⟨now, nd.cols.length,
      (((detectLoop ks ref thr nd.cols).1.filter fun p => p.2.drifted).map fun p => p.1),
      (detectLoop ks ref thr nd.cols).1, false, some e⟩ := by
  unfold detect_drift
  dsimp only
  rw [hc]

theorem detect_drift_ok (ks : List ℚ → List ℚ → Except String (ℚ × ℚ))
    (now : String) (ref nd : DataFrame) (thr : ℚ)
    (hc : (detectLoop ks ref thr nd.cols).2 = none) :
    detect_drift ks now (some ref) nd thr = .report ⟨now, nd.cols.length,
      (((detectLoop ks ref thr nd.cols).1.filter fun p => p.2.drifted).map fun p => p.1),
      (detectLoop ks ref thr nd.cols).1,
      decide (((((detectLoop ks ref thr nd.cols).1.filter fun p => p.2.drifted).map fun p => p.1).length : ℚ) > 0.2 * (nd.cols.length : ℚ)),
      none⟩ := by
  unfold detect_drift
  dsimp only
  rw [hc]

/-- Claim C1, amended (two corrections forced by the code: the 20% cut is
measured against the total number of columns of the new batch, not the
compared columns, and the overall-drift invariant only holds for runs in
which no KS call raises): with a loaded reference dataset, every recorded
score is marked drifted iff its KS p-value is strictly below the
threshold, and a feature is listed in drifted_features iff it has a
recorded score with p-value strictly below the threshold — on all runs,
including those a raising KS call aborts, for the scores recorded up to
that point. When no KS call raised (no error in the report), overall_drift
is true iff the number of drifted features is strictly greater than 0.2
times the number of columns of the new batch (exact equality with the
boundary gives false); when a KS call raised, the report carries the
message in its error field and overall_drift is false regardless of the
drifted count. -/
theorem detect_drift_spec (ks : List ℚ → List ℚ → Except String (ℚ × ℚ)) (now : String)
    (ref nd : DataFrame) (thr : ℚ) :
    (∀ n s, (n, s) ∈ (detect_drift ks now (some ref) nd thr).scores →
      (s.drifted = true ↔ s.p_value < thr)) ∧
    (∀ n, n ∈ (detect_drift ks now (some ref) nd thr).driftedFeatures ↔
      ∃ s, (n, s) ∈ (detect_drift ks now (some ref) nd thr).scores ∧
        s.p_value < thr) ∧
    ((detect_drift ks now (some ref) nd thr).errMsg = none →
      ((detect_drift ks now (some ref) nd thr).overallDrift = true ↔
        (((detect_drift ks now (some ref) nd thr).driftedFeatures.length : ℚ) >
          0.2 * (nd.cols.length : ℚ)))) ∧
    (∀ e, (detect_drift ks now (some ref) nd thr).errMsg = some e →
      (detect_drift ks now (some ref) nd thr).overallDrift = false) := by
  refine ⟨?_, ?_, ?_, ?_⟩
  · intro n s h
    rw [detect_drift_scores_mem ks now ref nd thr n s h]
    exact ⟨of_decide_eq_true, decide_eq_true⟩
  · intro n
    show n ∈ (((detect_drift ks now (some ref) nd thr).scores.filter
        fun p => p.2.drifted).map fun p => p.1) ↔
      ∃ s, (n, s) ∈ (detect_drift ks now (some ref) nd thr).scores ∧
        s.p_value < thr
    rw [List.mem_map]
    constructor
    · rintro ⟨⟨a, b⟩, hm, rfl⟩
      rw [List.mem_filter] at hm
      refine ⟨b, hm.1, ?_⟩
      have hb := detect_drift_scores_mem ks now ref nd thr a b hm.1
      rw [hb] at hm
      exact of_decide_eq_true hm.2
    · rintro ⟨s, hm, hlt⟩
      refine ⟨(n, s), ?_, rfl⟩
      rw [List.mem_filter]
      refine ⟨hm, ?_⟩
      rw [detect_drift_scores_mem ks now ref nd thr n s hm]
      exact decide_eq_true hlt
  · intro he
    have he2 : (detectLoop ks ref thr nd.cols).2 = none := he
    rw [detect_drift_ok ks now ref nd thr he2]
    exact ⟨of_decide_eq_true, decide_eq_true⟩
  · intro e he
    have he2 : (detectLoop ks ref thr nd.cols).2 = some e := he
    rw [detect_drift_err ks now ref nd thr e he2]
    rfl

/-- A KS oracle signalling maximal drift on every column pair. -/
def cexKs : List ℚ → List ℚ → Except String (ℚ × ℚ) := fun _ _ => .ok (0, 0)

/-- Reference data with the single feature column a. -/
def cexRef : DataFrame := ⟨1, [("a", [some 0])]⟩

/-- A new batch with five columns of which only a is shared with
cexRef. -/
def cexBatch : DataFrame :=
  ⟨1, [("a", [some 1]), ("b", []), ("c", []), ("d", []), ("e", [])]⟩

theorem cexScores :
    detectLoop cexKs cexRef 0.05 cexBatch.cols =
      ([("a", ⟨0, 0, true⟩)], none) := by
  have ha : scoreColumn cexKs cexRef 0.05 ("a", [some 1]) =
      .ok (some ("a", ⟨0, 0, true⟩)) := by
    norm_num [scoreColumn, cexKs, cexRef, dropna, List.lookup]
  have hb : scoreColumn cexKs cexRef 0.05 ("b", []) = .ok none := rfl
  have hc : scoreColumn cexKs cexRef 0.05 ("c", []) = .ok none := rfl
  have hd : scoreColumn cexKs cexRef 0.05 ("d", []) = .ok none := rfl
  have he : scoreColumn cexKs cexRef 0.05 ("e", []) = .ok none := rfl
  simp [cexBatch, detectLoop, ha, hb, hc, hd, he]

/-- Claim C1, counterexample to the claim as stated: a new batch of five
columns of which exactly one is shared with the reference and drifted,
on a run in which no KS call raises. The drifted count (1) strictly
exceeds 0.2 times the compared count (1), so the claim as stated requires
overall_drift = true, but the code compares against 0.2 times all five
batch columns and reports false. -/
theorem detect_drift_compared_cex :
    ((detect_drift cexKs "t" (some cexRef) cexBatch 0.05).scores.length = 1) ∧
    ((detect_drift cexKs "t" (some cexRef) cexBatch 0.05).driftedFeatures = ["a"]) ∧
    ((1 : ℚ) > 0.2 * 1) ∧
    ((detect_drift cexKs "t" (some cexRef) cexBatch 0.05).overallDrift = false) := by
  refine ⟨?_, ?_, by norm_num, ?_⟩
  · show ((detectLoop cexKs cexRef 0.05 cexBatch.cols).1).length = 1
    rw [cexScores]
    rfl
  · show (((detectLoop cexKs cexRef 0.05 cexBatch.cols).1.filter
        fun p => p.2.drifted).map fun p => p.1) = ["a"]
    rw [cexScores]
    simp
  · rw [detect_drift_ok cexKs "t" cexRef cexBatch 0.05 (by rw [cexScores])]
    show decide (((((detectLoop cexKs cexRef 0.05 cexBatch.cols).1.filter
        fun p => p.2.drifted).map fun p => p.1).length : ℚ) >
          0.2 * (cexBatch.cols.length : ℚ)) = false
    rw [cexScores]
    norm_num [cexBatch]

theorem detectLoop_no_shared (ks : List ℚ → List ℚ → Except String (ℚ × ℚ))
    (ref : DataFrame) (thr : ℚ) (cols : List (String × List (Option ℚ)))
    (h : ∀ c ∈ cols, ref.cols.lookup c.1 = none) :
    detectLoop ks ref thr cols = ([], none) := by
  induction cols with
  | nil => rfl
  | cons c rest ih =>
    have hc : scoreColumn ks ref thr c = .ok none := by
      unfold scoreColumn
      rw [h c (List.mem_cons_self c rest)]
    simp only [detectLoop, hc]
    exact ih fun d hd => h d (List.mem_cons_of_mem c hd)

/-- Claim C10 (confirmed): a new batch sharing no columns with the
reference (in particular a batch with no columns at all) never invokes
the KS test, so the loop cannot raise and the report has no scores, no
drifted features, no error, and overall_drift = false. -/
theorem detect_drift_no_shared (ks : List ℚ → List ℚ → Except String (ℚ × ℚ)) (now : String)
    (ref nd : DataFrame) (thr : ℚ)
    (h : ∀ c ∈ nd.cols, ref.cols.lookup c.1 = none) :
    detect_drift ks now (some ref) nd thr =
      .report ⟨now, nd.cols.length, [], [], false, none⟩ := by
  have hl := detectLoop_no_shared ks ref thr nd.cols h
  rw [detect_drift_ok ks now ref nd thr (by rw [hl])]
  rw [hl]
  simp only [List.filter_nil, List.map_nil, List.length_nil, Nat.cast_zero,
    DriftOutcome.report.injEq, DriftReport.mk.injEq, true_and, and_true]
  rw [decide_eq_false]
  rw [not_lt]
  positivity

/-- Claim C3 (confirmed): whenever evaluate_current_performance returns
the metrics dictionary and a baseline is loaded, the degradation ratios
are exactly (rmse - baseline.rmse) / baseline.rmse and
(baseline.r2 - r2) / baseline.r2, and the degradation flag holds iff
either ratio strictly exceeds the performance threshold. -/
theorem evaluate_degradation (env : MonitorEnv) (b : BaselineMetrics)
    (pt : ℚ) (ps acts : List ℚ) (pm : PerfMetrics)
    (h : evaluate_current_performance env (some b) pt ps acts = .ok pm) :
    ∃ dg : DegradationInfo, pm.degradation = some dg ∧
      dg.rmse_degradation = (pm.rmse - b.rmse) / b.rmse ∧
      dg.r2_degradation = (b.r2 - pm.r2) / b.r2 ∧
      (dg.performance_degraded = true ↔
        (dg.rmse_degradation > pt ∨ dg.r2_degradation > pt)) := by
  unfold evaluate_current_performance at h
  rcases h1 : mean_squared_error acts ps with e | mse <;> rw [h1] at h
  · exact absurd h (by simp)
  rcases h2 : mean_absolute_error acts ps with e | mae <;> rw [h2] at h
  · exact absurd h (by simp)
  rcases h3 : r2_score acts ps with e | r2 <;> rw [h3] at h
  · exact absurd h (by simp)
  dsimp only at h
  rcases h4 : env.logMetricExc with _ | e <;> rw [h4] at h
  swap
  · exact absurd h (by simp)
  dsimp only [Option.map] at h
  injection h with h5
  subst h5
  refine ⟨_, rfl, rfl, rfl, ?_⟩
  simp

theorem mean_squared_error_fails (y_true y_pred : List ℚ)
    (h : y_true.length ≠ y_pred.length ∨ y_true = []) :
    ∃ e, mean_squared_error y_true y_pred = .error e := by
  unfold mean_squared_error
  split_ifs with h1 h2
  · exact ⟨_, rfl⟩
  · exact ⟨_, rfl⟩
  · rcases h with h | h
    · exact absurd h h1
    · subst h
      exact absurd rfl h2

/-- Claim C9 (confirmed): on any input pair on which the metric
computation fails (a length mismatch or empty sequences), the evaluation
returns the error dictionary, which by construction carries only the
error string and a timestamp and none of the rmse, mae, r2 or
degradation fields. -/
theorem evaluate_error_dict (env : MonitorEnv) (b : Option BaselineMetrics)
    (pt : ℚ) (ps acts : List ℚ)
    (h : acts.length ≠ ps.length ∨ acts = []) :
    ∃ e, evaluate_current_performance env b pt ps acts = .err e env.nowIso := by
  obtain ⟨e, he⟩ := mean_squared_error_fails acts ps h
  refine ⟨e, ?_⟩
  unfold evaluate_current_performance
  rw [he]

/-- Claim C6 (confirmed): load_config returns the hard-coded defaults for
a missing, unreadable or malformed file, and for a parsed file every
recognized key takes the file's value when present and the default when
absent; the value of a recognized key depends only on the file's binding
of that same key, so unknown keys never change it. -/
theorem load_config_spec :
    (load_config none = default_config) ∧
    (default_config =
      [("drift_threshold", .num 0.05),
       ("performance_threshold", .num 0.1),
       ("min_samples_for_retraining", .num 100),
       ("max_days_since_last_training", .num 30),
       ("enable_automatic_retraining", .bool true)]) ∧
    (∀ kvs : List (String × JsonValue),
      ((load_config (some kvs)).lookup "drift_threshold" =
        some ((kvs.lookup "drift_threshold").getD (.num 0.05))) ∧
      ((load_config (some kvs)).lookup "performance_threshold" =
        some ((kvs.lookup "performance_threshold").getD (.num 0.1))) ∧
      ((load_config (some kvs)).lookup "min_samples_for_retraining" =
        some ((kvs.lookup "min_samples_for_retraining").getD (.num 100))) ∧
      ((load_config (some kvs)).lookup "max_days_since_last_training" =
        some ((kvs.lookup "max_days_since_last_training").getD (.num 30))) ∧
      ((load_config (some kvs)).lookup "enable_automatic_retraining" =
        some ((kvs.lookup "enable_automatic_retraining").getD (.bool true)))) := by
  refine ⟨rfl, rfl, fun kvs => ⟨rfl, rfl, rfl, rfl, rfl⟩⟩

/-- Claim C5, counterexample to the claim as stated: two successive calls
against a writable filesystem do not create two distinct artifacts; both
write the one fixed path, and after the second call exactly the second
record is on disk. -/
theorem trigger_retraining_overwrite_cex :
    ((trigger_retraining "t1" none none []).1 =
      [(trigger_file, ⟨"t1", "automated_monitoring", "pending"⟩)]) ∧
    ((trigger_retraining "t2" none none
        (trigger_retraining "t1" none none []).1).1 =
      [(trigger_file, ⟨"t2", "automated_monitoring", "pending"⟩)]) := by
  exact ⟨rfl, rfl⟩

/-- Claim C5, amended (the source writes a fixed trigger path, so the
second call overwrites the first): after two successive calls on a
writable filesystem both calls succeed, and the store holds exactly one
trigger artifact, at the fixed path, carrying the second call's record;
the rest of the filesystem is untouched. -/
theorem trigger_retraining_fixed_path (t1 t2 : String) (fs : FileSystem) :
    ((trigger_retraining t2 none none (trigger_retraining t1 none none fs).1).1 =
      (trigger_file, ⟨t2, "automated_monitoring", "pending"⟩) ::
        fs.filter fun e => e.1 != trigger_file) ∧
    ((trigger_retraining t1 none none fs).2 =
      .success trigger_file t1 "Retraining process initiated") ∧
    ((trigger_retraining t2 none none (trigger_retraining t1 none none fs).1).2 =
      .success trigger_file t2 "Retraining process initiated") := by
  refine ⟨?_, rfl, rfl⟩
  show writeFile (writeFile fs trigger_file ⟨t1, "automated_monitoring", "pending"⟩)
      trigger_file ⟨t2, "automated_monitoring", "pending"⟩ = _
  unfold writeFile
  simp [List.filter_cons, List.filter_filter]

theorem perfStep_none (env : MonitorEnv) (pt : ℚ) (b : Option BaselineMetrics)
    (d : RetrainingDecision) : perfStep env pt b none none d = d := rfl

theorem driftStep_no_rows (ks : List ℚ → List ℚ → Except String (ℚ × ℚ)) (nowIso : String)
    (t : ℚ) (rd : Option DataFrame) (cols : List (String × List (Option ℚ)))
    (d : RetrainingDecision) :
    driftStep ks nowIso t rd ⟨0, cols⟩ d = d := by
  unfold driftStep
  dsimp only
  rw [if_neg (lt_irrefl 0)]

theorem volumeStep_insufficient (ms : Int) (nd : DataFrame)
    (d : RetrainingDecision) (h : (nd.nrows : Int) < ms) :
    volumeStep ms nd d =
      {d with data_volume_check := some ⟨nd.nrows, ms, false⟩, reasons := d.reasons ++ ["Insufficient new data for retraining"]} := by
  unfold volumeStep
  dsimp only
  rw [decide_eq_false (not_le.mpr h)]
  rfl

/-- Claim C7, amended (an empty batch adds the insufficient-data reason
only when the configured minimum sample count is positive): a call with
an empty new-data table, no predictions and no actuals, a baseline whose
training timestamp is strictly fewer days old than
max_days_since_last_training, and a positive min_samples_for_retraining
returns should_retrain = false with exactly the one insufficient-data
reason. -/
theorem should_retrain_empty_input (env : MonitorEnv) (cfg : RetrainingConfig)
    (rd : Option DataFrame) (b : Option BaselineMetrics)
    (cols : List (String × List (Option ℚ))) (br bm br2 : ℚ) (ts : String)
    (k : Int) (h1 : env.daysSince ts = .ok k)
    (h2 : k < cfg.max_days_since_last_training)
    (h3 : 0 < cfg.min_samples_for_retraining) :
    ((should_retrain env cfg rd b (some ⟨br, bm, br2, some ts⟩) ⟨0, cols⟩
        none none).should_retrain = false) ∧
    ((should_retrain env cfg rd b (some ⟨br, bm, br2, some ts⟩) ⟨0, cols⟩
        none none).reasons = ["Insufficient new data for retraining"]) := by
  unfold should_retrain
  rw [driftStep_no_rows, perfStep_none,
    volumeStep_insufficient cfg.min_samples_for_retraining ⟨0, cols⟩
      (initDecision env.nowIso) (by simpa using h3),
    staleStep_quiet env.nowIso env.daysSince cfg.max_days_since_last_training
      ⟨br, bm, br2, some ts⟩ ts k _ rfl h1 (by omega)]
  have hov : overrideStep cfg.enable_automatic_retraining
      {initDecision env.nowIso with data_volume_check := some ⟨(0 : Nat), cfg.min_samples_for_retraining, false⟩, reasons := (initDecision env.nowIso).reasons ++ ["Insufficient new data for retraining"]} =
      {initDecision env.nowIso with data_volume_check := some ⟨(0 : Nat), cfg.min_samples_for_retraining, false⟩, reasons := (initDecision env.nowIso).reasons ++ ["Insufficient new data for retraining"]} := by
    unfold overrideStep initDecision
    simp
  rw [hov]
  rw [logStep_flag, logStep_reasons]
  exact ⟨rfl, rfl⟩

/-- Claim C7, counterexample to the claim as stated: with
min_samples_for_retraining configured to 0 the empty batch counts as
sufficient, so the decision's reasons list is empty rather than
containing exactly the insufficient-data reason, even though the batch is
empty, no predictions or actuals are supplied, and the baseline is 0 days
old against a 30-day limit. -/
theorem should_retrain_empty_cex :
    (((⟨fun _ _ => .ok (0, 0), id, "t", fun _ => .ok 0, none, none⟩ :
        MonitorEnv).daysSince "ts" = .ok 0) ∧ (0 : Int) < 30) ∧
    (should_retrain ⟨fun _ _ => .ok (0, 0), id, "t", fun _ => .ok 0, none, none⟩
        ⟨0.05, 0.1, 0, 30, true⟩ none none (some ⟨0.5, 0.4, 0.8, some "ts"⟩)
        ⟨0, []⟩ none none).reasons = [] ∧
    (should_retrain ⟨fun _ _ => .ok (0, 0), id, "t", fun _ => .ok 0, none, none⟩
        ⟨0.05, 0.1, 0, 30, true⟩ none none (some ⟨0.5, 0.4, 0.8, some "ts"⟩)
        ⟨0, []⟩ none none).should_retrain = false := by
  refine ⟨⟨rfl, by norm_num⟩, ?_, ?_⟩ <;>
    simp [should_retrain, driftStep, perfStep, volumeStep, staleStep,
      overrideStep, logStep, initDecision]

/-! ### Concrete fixtures for the witness theorems -/

def wKs : List ℚ → List ℚ → Except String (ℚ × ℚ) := fun _ _ => .ok (0, 0)

def wEnv0 : MonitorEnv := ⟨wKs, id, "t", fun _ => .ok 0, none, none⟩

def wEnv40 : MonitorEnv := ⟨wKs, id, "t", fun _ => .ok 40, none, none⟩

def wCfg : RetrainingConfig := ⟨0.05, 0.1, 100, 30, true⟩

def wCfgDisabled : RetrainingConfig := ⟨0.05, 0.1, 100, 30, false⟩

def wBaseline : BaselineMetrics := ⟨0.5, 0.4, 0.8, some "ts"⟩

/-- A KS oracle that raises on an empty second sample, as
scipy.stats.ks_2samp does, and otherwise signals maximal drift. -/
def cexKsRaise : List ℚ → List ℚ → Except String (ℚ × ℚ) := fun _ b =>
  if b.isEmpty then .error "Data passed to ks_2samp must not be empty"
  else .ok (0, 0)

/-- Reference data with the two feature columns a and b. -/
def cexRef2 : DataFrame := ⟨1, [("a", [some 0]), ("b", [some 0])]⟩

/-- A batch sharing both columns with cexRef2 whose column b is all-NaN,
so its KS call raises after column a has already been scored as
drifted. -/
def cexBatchRaise : DataFrame := ⟨1, [("a", [some 1]), ("b", [none])]⟩

theorem cexRaiseLoop :
    detectLoop cexKsRaise cexRef2 0.05 cexBatchRaise.cols =
      ([("a", ⟨0, 0, true⟩)], some "Data passed to ks_2samp must not be empty") := by
  have hks : cexKsRaise (dropna [some 0]) (dropna [some 1]) = .ok (0, 0) := rfl
  have ha : scoreColumn cexKsRaise cexRef2 0.05 ("a", [some 1]) =
      .ok (some ("a", ⟨0, 0, true⟩)) := by
    unfold scoreColumn
    rw [show cexRef2.cols.lookup "a" = some [some 0] from rfl]
    dsimp only
    rw [hks]
    norm_num
  have hb : scoreColumn cexKsRaise cexRef2 0.05 ("b", [none]) =
      .error "Data passed to ks_2samp must not be empty" := rfl
  simp [cexBatchRaise, detectLoop, ha, hb]

/-- Witness for C1: the amended drift invariants evaluated on the
concrete five-column batch (a clean run) and on the batch whose second
KS call raises (an aborted run with one drifted feature of two shared
columns, where overall_drift stays false). -/
theorem detect_drift_spec_witness :
    ((⟨0, 0, true⟩ : FeatureScore).drifted = true ↔
      (⟨0, 0, true⟩ : FeatureScore).p_value < 0.05) ∧
    ((detect_drift cexKs "t" (some cexRef) cexBatch 0.05).errMsg = none) ∧
    ((detect_drift cexKs "t" (some cexRef) cexBatch 0.05).overallDrift = true ↔
      ((detect_drift cexKs "t" (some cexRef) cexBatch 0.05).driftedFeatures.length : ℚ) >
        0.2 * (cexBatch.cols.length : ℚ)) ∧
    ((detect_drift cexKsRaise "t" (some cexRef2) cexBatchRaise 0.05).errMsg =
      some "Data passed to ks_2samp must not be empty") ∧
    ((detect_drift cexKsRaise "t" (some cexRef2) cexBatchRaise 0.05).overallDrift = false) := by
  have hnone : (detect_drift cexKs "t" (some cexRef) cexBatch 0.05).errMsg = none := by
    show (detectLoop cexKs cexRef 0.05 cexBatch.cols).2 = none
    rw [cexScores]
  have hsome : (detect_drift cexKsRaise "t" (some cexRef2) cexBatchRaise 0.05).errMsg =
      some "Data passed to ks_2samp must not be empty" := by
    show (detectLoop cexKsRaise cexRef2 0.05 cexBatchRaise.cols).2 =
      some "Data passed to ks_2samp must not be empty"
    rw [cexRaiseLoop]
  have hmem : ("a", (⟨0, 0, true⟩ : FeatureScore)) ∈
      (detect_drift cexKs "t" (some cexRef) cexBatch 0.05).scores := by
    show ("a", (⟨0, 0, true⟩ : FeatureScore)) ∈
      (detectLoop cexKs cexRef 0.05 cexBatch.cols).1
    rw [cexScores]
    simp
  exact ⟨(detect_drift_spec cexKs "t" cexRef cexBatch 0.05).1 "a" ⟨0, 0, true⟩ hmem,
    hnone,
    (detect_drift_spec cexKs "t" cexRef cexBatch 0.05).2.2.1 hnone,
    hsome,
    (detect_drift_spec cexKsRaise "t" cexRef2 cexBatchRaise 0.05).2.2.2 _ hsome⟩

/-- Witness for C2: the disabled-flag theorem evaluated on a concrete
disabled configuration. -/
theorem should_retrain_disabled_witness :
    (wCfgDisabled.enable_automatic_retraining = false) ∧
    ((should_retrain wEnv0 wCfgDisabled none none none ⟨0, []⟩ none none).should_retrain = false ∧
      ("Automatic retraining is disabled" ∈
          (should_retrain wEnv0 wCfgDisabled none none none ⟨0, []⟩ none none).reasons ↔
        (should_retrain wEnv0 {wCfgDisabled with enable_automatic_retraining := true}
            none none none ⟨0, []⟩ none none).should_retrain = true)) :=
  ⟨rfl, should_retrain_disabled wEnv0 wCfgDisabled none none none ⟨0, []⟩ none none rfl⟩

/-- Claim C2, counterexample to the claim as stated: with automatic
retraining disabled and every signal quiet (empty batch, no predictions,
no baseline artifact), the decision is false but its reasons do NOT
include "Automatic retraining is disabled" — the override appends the
reason only when some signal had set the decision to true. -/
theorem should_retrain_disabled_cex :
    (wCfgDisabled.enable_automatic_retraining = false) ∧
    ((should_retrain wEnv0 wCfgDisabled none none none ⟨0, []⟩ none none).reasons =
      ["Insufficient new data for retraining"]) ∧
    ("Automatic retraining is disabled" ∉
      (should_retrain wEnv0 wCfgDisabled none none none ⟨0, []⟩ none none).reasons) := by
  refine ⟨rfl, ?_, ?_⟩ <;>
    simp [should_retrain, driftStep, perfStep, volumeStep, staleStep,
      overrideStep, logStep, initDecision, wEnv0, wCfgDisabled, wKs]

/-- Witness for C3: a concrete evaluation with baseline rmse 1 and r2 1
on predictions [1, 0] against actuals [0, 1]. -/
theorem evaluate_degradation_witness :
    (evaluate_current_performance wEnv0 (some ⟨1, 1, 1, none⟩) 0.1 [1, 0] [0, 1] =
      .ok ⟨"t", 1, 1, -3, 2, some ⟨0, 4, true⟩⟩) ∧
    (∃ dg : DegradationInfo,
      (⟨"t", 1, 1, -3, 2, some ⟨0, 4, true⟩⟩ : PerfMetrics).degradation = some dg ∧
      dg.rmse_degradation =
        ((⟨"t", 1, 1, -3, 2, some ⟨0, 4, true⟩⟩ : PerfMetrics).rmse -
          (⟨1, 1, 1, none⟩ : BaselineMetrics).rmse) /
          (⟨1, 1, 1, none⟩ : BaselineMetrics).rmse ∧
      dg.r2_degradation =
        ((⟨1, 1, 1, none⟩ : BaselineMetrics).r2 -
          (⟨"t", 1, 1, -3, 2, some ⟨0, 4, true⟩⟩ : PerfMetrics).r2) /
          (⟨1, 1, 1, none⟩ : BaselineMetrics).r2 ∧
      (dg.performance_degraded = true ↔
        (dg.rmse_degradation > 0.1 ∨ dg.r2_degradation > 0.1))) := by
  have hW : evaluate_current_performance wEnv0 (some ⟨1, 1, 1, none⟩) 0.1 [1, 0] [0, 1] =
      .ok ⟨"t", 1, 1, -3, 2, some ⟨0, 4, true⟩⟩ := by
    norm_num [evaluate_current_performance, mean_squared_error,
      mean_absolute_error, r2_score, wEnv0]
  exact ⟨hW, evaluate_degradation wEnv0 ⟨1, 1, 1, none⟩ 0.1 [1, 0] [0, 1] _ hW⟩

/-- Witness for C7: the empty-batch scenario under the default
configuration and a baseline 0 days old. -/
theorem should_retrain_empty_input_witness :
    (wEnv0.daysSince "ts" = .ok 0 ∧ (0 : Int) < 30 ∧ (0 : Int) < 100) ∧
    ((should_retrain wEnv0 wCfg none none (some ⟨0.5, 0.4, 0.8, some "ts"⟩)
        ⟨0, []⟩ none none).should_retrain = false) ∧
    ((should_retrain wEnv0 wCfg none none (some ⟨0.5, 0.4, 0.8, some "ts"⟩)
        ⟨0, []⟩ none none).reasons = ["Insufficient new data for retraining"]) := by
  have h := should_retrain_empty_input wEnv0 wCfg none none [] 0.5 0.4 0.8 "ts" 0
    rfl (by decide) (by decide)
  exact ⟨⟨rfl, by decide, by decide⟩, h.1, h.2⟩

/-- Witness for C8: the spec scenario of a baseline 40 days old against a
30-day limit. -/
theorem should_retrain_staleness_witness :
    ((40 : Int) > 30) ∧
    ("Model is 40 days old" ∈
      (should_retrain wEnv40 wCfg none none (some wBaseline) ⟨0, []⟩ none none).reasons) ∧
    ((should_retrain wEnv40 wCfg none none (some wBaseline) ⟨0, []⟩
        none none).should_retrain = true) := by
  have h := should_retrain_staleness wEnv40 wCfg none none ⟨0, []⟩ none none
    wBaseline "ts" 40 rfl rfl
  refine ⟨by decide, ?_, (h.1 (by decide)).2 rfl⟩
  exact (h.1 (by decide)).1

/-- Witness for C9: evaluation with one prediction and no actuals fails
and yields the error dictionary. -/
theorem evaluate_error_dict_witness :
    ((([] : List ℚ).length ≠ ([1] : List ℚ).length ∨ ([] : List ℚ) = [])) ∧
    (∃ e, evaluate_current_performance wEnv0 none 0.1 [1] [] =
      .err e wEnv0.nowIso) :=
  ⟨Or.inr rfl, evaluate_error_dict wEnv0 none 0.1 [1] [] (Or.inr rfl)⟩

/-- Witness for C10: a one-column batch sharing nothing with the
reference yields the empty report. -/
theorem detect_drift_no_shared_witness :
    (∀ c ∈ ([("z", [])] : List (String × List (Option ℚ))),
      cexRef.cols.lookup c.1 = none) ∧
    (detect_drift wKs "t" (some cexRef) ⟨1, [("z", [])]⟩ 0.05 =
      .report ⟨"t", 1, [], [], false, none⟩) := by
  have hz : ∀ c ∈ ([("z", [])] : List (String × List (Option ℚ))),
      cexRef.cols.lookup c.1 = none := by
    intro c hc
    simp only [List.mem_singleton] at hc
    subst hc
    rfl
  exact ⟨hz, detect_drift_no_shared wKs "t" cexRef ⟨1, [("z", [])]⟩ 0.05 hz⟩

end DataMon
